import Mathlib

/-!
Verification of the network built by `src/htbab_tutorials/ch6-learn.ipynb`
("Learning a communication channel").

The notebook's model-construction cell declares ensembles, nodes and
connections under `nengo.Network(label='Learning', seed=7)`.  We embed that
cell as explicit Lean data: each `nengo.Ensemble`, `nengo.Node` and
`nengo.Connection` call becomes a record, in source order, with the exact
parameters written in the notebook.  Numeric literals (0.02, 0.01, 1e-10)
are embedded as the rationals they denote.

Where a claim depends on behaviour of the external nengo/numpy framework
(learning-rule updates, the global random generator), that behaviour is
modelled in clearly marked definitions whose doc comments start with
`Modelled from the spec:`.
-/

/-- Neuron response model of an ensemble.  The notebook leaves `pre`,
`post` and `error` at the framework default (spiking LIF) and sets
`actual_error` to `nengo.Direct()`. -/
inductive NeuronType where
  | LIF
  | Direct
deriving DecidableEq, Repr

/-- A `nengo.Ensemble(n_neurons, dimensions, ...)` call. -/
structure Ensemble where
  name : String
  n_neurons : Nat
  dimensions : Nat
  neuron_type : NeuronType
deriving DecidableEq, Repr

/-- Endpoint of a connection: an ensemble, the raw neurons of an ensemble
(`ens.neurons`), a node, or a named learning rule of a named connection
(`conn.learning_rule['my_pes']`). -/
inductive Endpoint where
  | ens (name : String)
  | neurons (name : String)
  | node (name : String)
  | lrule (connName : String) (ruleName : String)
deriving DecidableEq, Repr

/-- The `transform=` argument of a connection: absent (framework default,
identity), a scalar, or an explicit matrix (list of rows). -/
inductive Transform where
  | ident
  | scalar (c : ℚ)
  | matrix (rows : List (List ℚ))
deriving DecidableEq, Repr

/-- The `function=` argument of a connection: absent, or the notebook's
`lambda x: np.random.random(1)`. -/
inductive ConnFunc where
  | noFunc
  | randomDraw
deriving DecidableEq, Repr

/-- The `solver=` argument: `nengo.solvers.LstsqL2(weights=...)`. -/
inductive SolverSpec where
  | lstsqL2 (weights : Bool)
deriving DecidableEq, Repr

/-- A learning rule attached to a connection: `nengo.PES()` (framework
default parameters) or `nengo.BCM(learning_rate=r)`. -/
inductive LearningRuleSpec where
  | PES
  | BCM (learning_rate : ℚ)
deriving DecidableEq, Repr

/-- A `nengo.Connection(...)` call, with the arguments the notebook passes;
omitted arguments are recorded as the "absent" value (`.ident`, `none`,
`.noFunc`, `[]`). -/
structure Connection where
  source : Endpoint
  target : Endpoint
  transform : Transform
  synapse : Option ℚ
  func : ConnFunc
  solver : Option SolverSpec
  learning_rule_type : List (String × LearningRuleSpec)
deriving DecidableEq, Repr

/-- What a `nengo.Node` outputs: a `WhiteSignal(period, high=...)` process
or a Python function of simulation time. -/
inductive NodeOutput where
  | whiteSignal (period : ℚ) (high : ℚ)
  | timeFun (f : ℚ → ℚ)

/-- A `nengo.Node(...)` call.  `size_out` is the framework-determined
output dimensionality (1 for a scalar-valued function and for this
`WhiteSignal`). -/
structure Node where
  name : String
  output : NodeOutput
  size_out : Nat

/-- The enclosing `nengo.Network(label='Learning', seed=7)` with everything
declared inside its `with` block. -/
structure Network where
  label : String
  seed : Nat
  ensembles : List Ensemble
  nodes : List Node
  connections : List Connection

-- `pre = nengo.Ensemble(50, dimensions=1)`
def pre : Ensemble := { name := "pre", n_neurons := 50, dimensions := 1, neuron_type := .LIF }

-- `post = nengo.Ensemble(50, dimensions=1)`
def post : Ensemble := { name := "post", n_neurons := 50, dimensions := 1, neuron_type := .LIF }

-- `error = nengo.Ensemble(100, dimensions=1)`
def error : Ensemble := { name := "error", n_neurons := 100, dimensions := 1, neuron_type := .LIF }

-- `actual_error = nengo.Ensemble(100, dimensions=1, neuron_type=nengo.Direct())`
def actual_error : Ensemble :=
  { name := "actual_error", n_neurons := 100, dimensions := 1, neuron_type := .Direct }

-- `nengo.Connection(pre, actual_error, transform=-1)`
def conn_pre_actual_error : Connection :=
  { source := .ens "pre", target := .ens "actual_error", transform := .scalar (-1),
    synapse := none, func := .noFunc, solver := none, learning_rule_type := [] }

-- `nengo.Connection(post, actual_error, transform=1)`
def conn_post_actual_error : Connection :=
  { source := .ens "post", target := .ens "actual_error", transform := .scalar 1,
    synapse := none, func := .noFunc, solver := none, learning_rule_type := [] }

-- `nengo.Connection(pre, error, transform=-1, synapse=0.02)`
def conn_pre_error : Connection :=
  { source := .ens "pre", target := .ens "error", transform := .scalar (-1),
    synapse := some (2/100), func := .noFunc, solver := none, learning_rule_type := [] }

-- `nengo.Connection(post, error, transform=1, synapse=0.02)`
def conn_post_error : Connection :=
  { source := .ens "post", target := .ens "error", transform := .scalar 1,
    synapse := some (2/100), func := .noFunc, solver := none, learning_rule_type := [] }

-- `conn = nengo.Connection(pre, post, function=lambda x: np.random.random(1),
--                          solver=nengo.solvers.LstsqL2(weights=True))`
-- followed by
-- `conn.learning_rule_type = {'my_pes': nengo.PES(), 'my_bcm': nengo.BCM(learning_rate=1e-10)}`
def conn : Connection :=
  { source := .ens "pre", target := .ens "post", transform := .ident,
    synapse := none, func := .randomDraw, solver := some (.lstsqL2 true),
    learning_rule_type := [("my_pes", .PES), ("my_bcm", .BCM (1 / 10 ^ 10))] }

-- `error_conn = nengo.Connection(error, conn.learning_rule['my_pes'])`
def error_conn : Connection :=
  { source := .ens "error", target := .lrule "conn" "my_pes", transform := .ident,
    synapse := none, func := .noFunc, solver := none, learning_rule_type := [] }

-- `input = nengo.Node(WhiteSignal(30, high=10))`
def input : Node := { name := "input", output := .whiteSignal 30 10, size_out := 1 }

-- `nengo.Connection(input, pre, synapse=0.02)`
def conn_input_pre : Connection :=
  { source := .node "input", target := .ens "pre", transform := .ident,
    synapse := some (2/100), func := .noFunc, solver := none, learning_rule_type := [] }

-- `def inhib(t): return 2.0 if t > 15.0 else 0.0`
def inhib (t : ℚ) : ℚ := if t > 15 then 2 else 0

-- `inhibit = nengo.Node(inhib)`
def inhibit : Node := { name := "inhibit", output := .timeFun inhib, size_out := 1 }

-- `nengo.Connection(inhibit, error.neurons, transform=[[-1]] * error.n_neurons, synapse=0.01)`
def conn_inhibit_error : Connection :=
  { source := .node "inhibit", target := .neurons "error",
    transform := .matrix (List.replicate error.n_neurons [(-1 : ℚ)]),
    synapse := some (1/100), func := .noFunc, solver := none, learning_rule_type := [] }

-- `model = nengo.Network(label='Learning', seed=7)` with the `with model:` block.
def model : Network :=
  { label := "Learning", seed := 7,
    ensembles := [pre, post, error, actual_error],
    nodes := [input, inhibit],
    connections := [conn_pre_actual_error, conn_post_actual_error,
                    conn_pre_error, conn_post_error,
                    conn, error_conn, conn_input_pre, conn_inhibit_error] }

/-- Contribution of one connection to the value decoded into an
ensemble-level target `tgt`: a function-free connection from ensemble `s`
passes `s`'s represented value through its transform.  Connections with a
`function=` argument, or with other source/target kinds, contribute
nothing to this ensemble-level sum. -/
def contrib (env : String → ℚ) (tgt : String) (c : Connection) : ℚ :=
  if c.target = .ens tgt ∧ c.func = .noFunc then
    match c.source, c.transform with
    | .ens s, .ident => env s
    | .ens s, .scalar k => k * env s
    | _, _ => 0
  else 0

/-- Steady-state value represented by ensemble `tgt` as the sum of its
incoming ensemble-to-ensemble connections, given an assignment `env` of
represented values to source ensembles. -/
def representedInput (net : Network) (tgt : String) (env : String → ℚ) : ℚ :=
  (net.connections.map (contrib env tgt)).sum

/-- Environment assigning value `a` to `pre` and `b` to `post`. -/
def envPP (a b : ℚ) : String → ℚ :=
  fun s => if s = "pre" then a else if s = "post" then b else 0

/-- Modelled from the spec: the error-driven (supervised) PES component of
the learning rule — missing from src/ because it lives in the external
framework — changes a weight in proportion to the error signal delivered
to the rule and the presynaptic activity. -/
def pes_delta (κ err act : ℚ) : ℚ := -κ * err * act

/-- Modelled from the spec: the correlation-driven (unsupervised) BCM
component — missing from src/ because it lives in the external framework —
changes a weight in proportion to the pre/post activity correlation
relative to a modification threshold θ; it takes no error input. -/
def bcm_delta (κ pre_a post_a θ : ℚ) : ℚ := κ * pre_a * post_a * (post_a - θ)

/-- Modelled from the spec: "an inhibitory input silences the error
population" — the error signal the PES rule receives is zero whenever the
`inhibit` node's source function `inhib` outputs a positive inhibition,
and is the raw error otherwise. -/
def gatedError (t raw : ℚ) : ℚ := if 0 < inhib t then 0 else raw

/-- Modelled from the spec: the per-step weight update of the pre→post
connection is the sum of the PES term, driven by the gated error signal,
and the BCM term with the notebook's learning rate 1e-10. -/
def conn_weight_update (κ t raw pre_a post_a θ : ℚ) : ℚ :=
  pes_delta κ (gatedError t raw) pre_a + bcm_delta (1 / 10 ^ 10) pre_a post_a θ

/-- Modelled from the spec/claim: the global NumPy random generator — an
advancing position `idx` over an output stream — whose state is not an
attribute of the network and is not derived from the network seed. -/
structure GlobalRng where
  stream : Nat → ℚ
  idx : Nat

/-- Modelled from the spec: `np.random.random(1)` returns the next value
of the global generator and advances its state. -/
def np_random_random (g : GlobalRng) : ℚ × GlobalRng :=
  (g.stream g.idx, { g with idx := g.idx + 1 })

/-- The notebook's `lambda x: np.random.random(1)` passed as the
connection function of `conn`: its parameter `x` does not occur in its
body, which draws from the global generator. -/
def conn_function (x : ℚ) (g : GlobalRng) : ℚ × GlobalRng := np_random_random g

/-- Modelled from the spec: at build time the decoder solver evaluates the
connection's function at its evaluation points, threading the global
generator state through the successive evaluations. -/
def evalFunctionAt : List ℚ → GlobalRng → List ℚ × GlobalRng
  | [], g => ([], g)
  | p :: rest, g =>
    let v := conn_function p g
    let r := evalFunctionAt rest v.2
    (v.1 :: r.1, r.2)

/-- Modelled from the spec: the function-value data from which the linear
decoder solver computes the initial pre→post weights, as a function of the
network seed, the evaluation points and the global generator state. -/
def initialWeightData (seed : Nat) (pts : List ℚ) (g : GlobalRng) : List ℚ × GlobalRng :=
  evalFunctionAt pts g

/-- A concrete global-generator state used as a witness input. -/
def g0 : GlobalRng := { stream := fun n => (n : ℚ), idx := 0 }

theorem representedInput_error (env : String → ℚ) :
    representedInput model "error" env = env "post" - env "pre" := by
  simp [representedInput, model, contrib,
    conn_pre_actual_error, conn_post_actual_error, conn_pre_error, conn_post_error,
    conn, error_conn, conn_input_pre, conn_inhibit_error]
  ring

theorem representedInput_actual_error (env : String → ℚ) :
    representedInput model "actual_error" env = env "post" - env "pre" := by
  simp [representedInput, model, contrib,
    conn_pre_actual_error, conn_post_actual_error, conn_pre_error, conn_post_error,
    conn, error_conn, conn_input_pre, conn_inhibit_error]
  ring

/-- The ensemble of `model` with the given variable name, if any. -/
def ensembleNamed (n : String) : Option Ensemble :=
  model.ensembles.find? (fun e => e.name == n)

/-- The node of `model` with the given variable name, if any. -/
def nodeNamed (n : String) : Option Node :=
  model.nodes.find? (fun v => v.name == n)

/-- Signal dimensionality of an ensemble-level or node-level endpoint in
`model` (`none` for neuron-level and learning-rule endpoints, whose sizes
are not ensemble dimensionalities). -/
def endpointDim : Endpoint → Option Nat
  | .ens n => (ensembleNamed n).map Ensemble.dimensions
  | .node n => (nodeNamed n).map Node.size_out
  | .neurons _ => none
  | .lrule _ _ => none

/-- The claim's dimension-matching check for one connection: an
ensemble-to-ensemble or node-to-ensemble connection must be 1-dimensional
on both ends; other connections are outside the claim's first conjunct. -/
def connDimsOk (c : Connection) : Bool :=
  match c.source, c.target with
  | .ens s, .ens t => endpointDim (.ens s) == some 1 && endpointDim (.ens t) == some 1
  | .node s, .ens t => endpointDim (.node s) == some 1 && endpointDim (.ens t) == some 1
  | _, _ => true

/-- Whether a connection's target is a learning-rule endpoint. -/
def targetsLRule (c : Connection) : Bool :=
  match c.target with
  | .lrule _ _ => true
  | _ => false

/-- Whether a connection's target is a neuron-level endpoint. -/
def targetsNeurons (c : Connection) : Bool :=
  match c.target with
  | .neurons _ => true
  | _ => false

theorem evalFunctionAt_fst (p : ℚ) (pts : List ℚ) (g : GlobalRng) :
    (evalFunctionAt (p :: pts) g).1 =
      g.stream g.idx :: (evalFunctionAt pts (np_random_random g).2).1 := rfl

theorem evalFunctionAt_stream (pts : List ℚ) (g : GlobalRng) :
    ((evalFunctionAt pts g).2).stream = g.stream := by
  induction pts generalizing g with
  | nil => rfl
  | cons p rest ih => simpa [evalFunctionAt, conn_function, np_random_random] using ih _

theorem evalFunctionAt_idx (pts : List ℚ) (g : GlobalRng) :
    ((evalFunctionAt pts g).2).idx = g.idx + pts.length := by
  induction pts generalizing g with
  | nil => simp [evalFunctionAt]
  | cons p rest ih =>
      simp [evalFunctionAt, conn_function, np_random_random, ih]
      omega

/-- Claim C1 counterexample: the claim "for every simulation time t > 15,
no further weight update is applied to the pre→post connection" is false:
at t = 16 with presynaptic activity 1, postsynaptic activity 2 and BCM
threshold 1, the connection's weight update is nonzero (the BCM component,
rate 1e-10, is unaffected by the inhibition of the error population). -/
theorem C1_counterexample :
    (16 : ℚ) > 15 ∧ conn_weight_update (1 / 10 ^ 4) 16 1 1 2 1 ≠ 0 := by
  constructor
  · norm_num
  · norm_num [conn_weight_update, pes_delta, bcm_delta, gatedError, inhib]

/-- Claim C1 (amended): for every t > 15 the inhibition zeroes the error
signal, so the error-driven (PES) component of the weight update of the
pre→post connection is zero and the whole update reduces to the BCM term
(rate 1e-10); the inhibit node is connected only to the error population's
neurons, so the post population's behaviour is otherwise untouched. -/
theorem C1_amended_thm :
    (∀ κ t raw a : ℚ, 15 < t → pes_delta κ (gatedError t raw) a = 0) ∧
    (∀ κ t raw pre_a post_a θ : ℚ, 15 < t →
      conn_weight_update κ t raw pre_a post_a θ = bcm_delta (1 / 10 ^ 10) pre_a post_a θ) ∧
    model.connections.filter (fun c => c.source == .node "inhibit") = [conn_inhibit_error] ∧
    conn_inhibit_error.target = .neurons "error" := by
  have hz : ∀ t raw : ℚ, 15 < t → gatedError t raw = 0 := by
    intro t raw ht
    simp only [gatedError, inhib, if_pos ht]
    norm_num
  refine ⟨?_, ?_, rfl, rfl⟩
  · intro κ t raw a ht
    simp [pes_delta, hz t raw ht]
  · intro κ t raw pre_a post_a θ ht
    simp [conn_weight_update, pes_delta, hz t raw ht]

/-- Claim C1 witness: the amended theorem instantiated at t = 16. -/
theorem C1_witness :
    pes_delta 1 (gatedError 16 5) 3 = 0 ∧
    conn_weight_update 1 16 5 1 2 1 = bcm_delta (1 / 10 ^ 10) 1 2 1 :=
  ⟨C1_amended_thm.1 1 16 5 3 (by norm_num),
   C1_amended_thm.2.1 1 16 5 1 2 1 (by norm_num)⟩

/-- Claim C2 counterexample: the claim says the represented error equals
pre minus post; with pre = 1 and post = 0 the error ensemble's represented
input is −1 while pre − post = 1, so the claim is false. -/
theorem C2_counterexample :
    representedInput model "error" (envPP 1 0) = -1 ∧
    envPP 1 0 "pre" - envPP 1 0 "post" = 1 ∧
    representedInput model "error" (envPP 1 0) ≠ envPP 1 0 "pre" - envPP 1 0 "post" := by
  have hpre : envPP 1 0 "pre" = 1 := rfl
  have hpost : envPP 1 0 "post" = 0 := rfl
  have h : representedInput model "error" (envPP 1 0) = -1 := by
    rw [representedInput_error, hpre, hpost]; norm_num
  refine ⟨h, by rw [hpre, hpost]; norm_num, ?_⟩
  rw [h, hpre, hpost]; norm_num

/-- Claim C2 (amended): the connection from pre carries transform −1 and
the connection from post carries transform +1, so the error ensemble
represents post's value minus pre's value — the negation of pre − post. -/
theorem C2_amended_thm :
    (∀ env : String → ℚ, representedInput model "error" env = env "post" - env "pre") ∧
    conn_pre_error.source = .ens "pre" ∧ conn_pre_error.target = .ens "error" ∧
    conn_pre_error.transform = .scalar (-1) ∧
    conn_post_error.source = .ens "post" ∧ conn_post_error.target = .ens "error" ∧
    conn_post_error.transform = .scalar 1 :=
  ⟨representedInput_error, rfl, rfl, rfl, rfl, rfl, rfl⟩

/-- Claim C3: the inhib function outputs exactly 2 for t > 15 and exactly
0 otherwise, and the inhibit node is connected to every one of the error
ensemble's 100 neurons with weight −1. -/
theorem C3_thm :
    (∀ t : ℚ, 15 < t → inhib t = 2) ∧
    (∀ t : ℚ, t ≤ 15 → inhib t = 0) ∧
    conn_inhibit_error.source = .node "inhibit" ∧
    conn_inhibit_error.target = .neurons "error" ∧
    conn_inhibit_error.transform = .matrix (List.replicate 100 [-1]) ∧
    error.n_neurons = 100 ∧
    inhibit.output = .timeFun inhib := by
  refine ⟨?_, ?_, rfl, rfl, rfl, rfl, rfl⟩
  · intro t ht; simp [inhib, if_pos ht]
  · intro t ht; simp [inhib, not_lt.mpr ht]

/-- Claim C3 witness: the inhib facts instantiated at t = 16 and t = 15. -/
theorem C3_witness : inhib 16 = 2 ∧ inhib 15 = 0 :=
  ⟨C3_thm.1 16 (by norm_num), C3_thm.2.1 15 (by norm_num)⟩

/-- Claim C4: the pre→post connection carries exactly two learning rules,
a PES rule and a BCM rule with learning rate 1e-10, and the only
connection targeting a learning rule is error_conn, which routes the error
ensemble's output to the PES rule (the BCM rule receives no error
input). -/
theorem C4_thm :
    conn.learning_rule_type.length = 2 ∧
    conn.learning_rule_type.lookup "my_pes" = some .PES ∧
    conn.learning_rule_type.lookup "my_bcm" = some (.BCM (1 / 10 ^ 10)) ∧
    model.connections.filter targetsLRule = [error_conn] ∧
    error_conn.source = .ens "error" ∧
    error_conn.target = .lrule "conn" "my_pes" ∧
    model.connections.filter (fun c => c.target == .lrule "conn" "my_bcm") = [] := by
  refine ⟨rfl, rfl, rfl, rfl, rfl, rfl, rfl⟩

/-- Claim C5: the noiseless actual_error ensemble computes the same linear
combination of pre and post as the spiking error ensemble — both receive
pre through transform −1 and post through transform +1 — and the two
differ only in neuron response model (Direct versus the default spiking
LIF) and synaptic filtering (explicit 0.02 versus framework default). -/
theorem C5_thm :
    (∀ env : String → ℚ,
      representedInput model "error" env = representedInput model "actual_error" env) ∧
    conn_pre_error.transform = .scalar (-1) ∧ conn_post_error.transform = .scalar 1 ∧
    conn_pre_actual_error.transform = .scalar (-1) ∧ conn_post_actual_error.transform = .scalar 1 ∧
    error.neuron_type = .LIF ∧ actual_error.neuron_type = .Direct ∧
    conn_pre_error.synapse = some (2/100) ∧ conn_post_error.synapse = some (2/100) ∧
    conn_pre_actual_error.synapse = none ∧ conn_post_actual_error.synapse = none := by
  refine ⟨?_, rfl, rfl, rfl, rfl, rfl, rfl, rfl, rfl, rfl, rfl⟩
  intro env
  rw [representedInput_error, representedInput_actual_error]

/-- Claim C6: pre and post are each 50-neuron 1-dimensional ensembles
joined by exactly one connection (conn), which carries the learning rules;
the error ensemble represents zero exactly when post's value equals pre's
value, so driving the error to zero makes post reproduce pre (the
communication channel, i.e. the identity function). -/
theorem C6_thm :
    pre.n_neurons = 50 ∧ pre.dimensions = 1 ∧
    post.n_neurons = 50 ∧ post.dimensions = 1 ∧
    model.connections.filter (fun c => c.source == .ens "pre" && c.target == .ens "post")
      = [conn] ∧
    conn.learning_rule_type ≠ [] ∧
    (∀ a b : ℚ, representedInput model "error" (envPP a b) = 0 ↔ b = a) := by
  refine ⟨rfl, rfl, rfl, rfl, rfl, by simp [conn], ?_⟩
  intro a b
  have hpost : envPP a b "post" = b := rfl
  have hpre : envPP a b "pre" = a := rfl
  rw [representedInput_error, hpost, hpre, sub_eq_zero]

/-- Claim C7: the network is constructed with fixed seed 7 and label
"Learning", the input node is a WhiteSignal with period 30 and
high-frequency cutoff 10, and the input is connected to pre through a
0.02-second (= 2/100) synapse. -/
theorem C7_thm :
    model.seed = 7 ∧ model.label = "Learning" ∧
    input.output = .whiteSignal 30 10 ∧ input.size_out = 1 ∧
    conn_input_pre.source = .node "input" ∧ conn_input_pre.target = .ens "pre" ∧
    conn_input_pre.synapse = some (2/100) :=
  ⟨rfl, rfl, rfl, rfl, rfl, rfl, rfl⟩

/-- Claim C8: every ensemble-to-ensemble and node-to-ensemble connection
of the model is 1-dimensional on both ends, and the inhibit-to-
error.neurons transform is a matrix of 100 rows (one per neuron of the
error ensemble, which has 100 neurons), each row the single entry −1. -/
theorem C8_thm :
    model.connections.all connDimsOk = true ∧
    conn_inhibit_error.transform = .matrix (List.replicate 100 [(-1 : ℚ)]) ∧
    (List.replicate 100 [(-1 : ℚ)]).length = 100 ∧
    (List.replicate 100 [(-1 : ℚ)]).all (fun r => r.length == 1) = true ∧
    error.n_neurons = 100 :=
  ⟨rfl, rfl, rfl, rfl, rfl⟩

/-- Claim C9: the connection function `lambda x: np.random.random(1)`
ignores its argument and draws afresh from the global generator (advancing
its state by one per evaluation); the data determining the initial
pre→post weights does not depend on the network seed, and two successive
constructions with the same seed 7 yield different weight data whenever
the global stream's values at the two consumed positions differ. -/
theorem C9_thm :
    (∀ (x y : ℚ) (g : GlobalRng), conn_function x g = conn_function y g) ∧
    (∀ (x : ℚ) (g : GlobalRng), ((conn_function x g).2).idx = g.idx + 1) ∧
    (∀ (seed1 seed2 : Nat) (pts : List ℚ) (g : GlobalRng),
      initialWeightData seed1 pts g = initialWeightData seed2 pts g) ∧
    (∀ (p : ℚ) (pts : List ℚ) (g : GlobalRng),
      g.stream g.idx ≠ g.stream ((initialWeightData 7 (p :: pts) g).2).idx →
      (initialWeightData 7 (p :: pts) g).1 ≠
        (initialWeightData 7 (p :: pts) ((initialWeightData 7 (p :: pts) g).2)).1) := by
  refine ⟨fun x y g => rfl, fun x g => rfl, fun s1 s2 pts g => rfl, ?_⟩
  intro p pts g hne heq
  apply hne
  simp only [initialWeightData] at heq ⊢
  rw [evalFunctionAt_fst, evalFunctionAt_fst] at heq
  injection heq with h1 h2
  rw [evalFunctionAt_stream] at h1
  exact h1

/-- Claim C9 witness: with the concrete global state g0 (stream n ↦ n,
position 0), building twice in succession with seed 7 and one evaluation
point yields different initial-weight data. -/
theorem C9_witness :
    (initialWeightData 7 [0] g0).1
      ≠ (initialWeightData 7 [0] ((initialWeightData 7 [0] g0).2)).1 :=
  C9_thm.2.2.2 0 [] g0 (by
    norm_num [initialWeightData, evalFunctionAt, conn_function, np_random_random, g0])

/-- Claim C10: the only neuron-level connection in the model is the
inhibit-to-error.neurons connection; the inhibit node sources no other
connection; actual_error's only incoming connections are the two from pre
and post, so the plotted actual error (post minus pre) is computed
unchanged after learning is switched off. -/
theorem C10_thm :
    model.connections.filter targetsNeurons = [conn_inhibit_error] ∧
    conn_inhibit_error.target = .neurons "error" ∧
    model.connections.filter (fun c => c.source == .node "inhibit") = [conn_inhibit_error] ∧
    model.connections.filter (fun c => c.target == .ens "actual_error")
      = [conn_pre_actual_error, conn_post_actual_error] ∧
    conn_pre_actual_error.source = .ens "pre" ∧
    conn_post_actual_error.source = .ens "post" ∧
    (∀ env : String → ℚ, representedInput model "actual_error" env = env "post" - env "pre") :=
  ⟨rfl, rfl, rfl, rfl, rfl, rfl, representedInput_actual_error⟩
